import Mathlib

/-!
Verification of the weather-data fetch pipeline
(src/assignment_2_packages/data/open_meteo.py and
src/assignment_2_packages/data/io.py).

The Python code is embedded shallowly:

* JSON payloads become the inductive type Json over flat Scalar leaves
  (the daily block of an Open-Meteo payload maps variable names to arrays
  of scalars, which is all the pipeline ever touches).
* pandas DataFrames become DF: an ordered column header plus a list of
  rows.  The integer row index of pandas is modelled away: the code only
  ever uses ignore_index / reset_index(drop=True), so row order carries
  all index information.
* Timestamps (dtype datetime64) become Value.ts day tod tz, where day is
  a strictly monotone injective encoding of the calendar date
  (y * 372 + (m - 1) * 31 + (d - 1)), tod the time-of-day in seconds and
  tz an optional UTC offset (to_datetime with utc=False on offset-free
  ISO strings yields naive timestamps, i.e. tz = none).
* Effects (HTTP GET, raw-file writes, directory creation) become
  environment records that say, for each effectful step, whether it
  raises; a raised Python exception is Except.error.
* sort_values("date") is called with pandas' default kind='quicksort',
  which guarantees only a permutation of the rows ordered by the date
  column and is documented as not stable, so where equal-date rows land
  is not a program guarantee.  An executable embedding must still pick
  one permutation; this one uses mergeSort ordered by the date key
  alone, and no theorem relies on the relative order of equal-date
  rows.  drop_duplicates(subset=["date"], keep="first") keeps the first
  row of each date value in whatever order the sort produced.
* time.sleep is modelled by counting executions of the politeness delay.
-/

/-- Error classification for raised Python exceptions. -/
inductive Err where
  | httpError
  | ioError
  | valueError
  | parseError
deriving DecidableEq, Repr

/-- Flat JSON leaf values (None, bools, numbers, strings).  Numbers are
modelled as integers: the pipeline never computes with them. -/
inductive Scalar where
  | null
  | bool (b : Bool)
  | num (n : Int)
  | str (s : String)
deriving DecidableEq, Repr

/-- JSON values as the payload code observes them: a scalar, an array of
scalars (a daily-variable column), or an object.  Nested arrays of
non-scalars do not occur in Open-Meteo daily payloads. -/
inductive Json where
  | scalar (v : Scalar)
  | arr (elems : List Scalar)
  | obj (entries : List (String × Json))
deriving Repr

/-- Cell of a DataFrame: either a raw scalar as it came from the payload,
or a timestamp produced by pd.to_datetime (day encoding, time of day in
seconds, optional timezone offset; none = naive). -/
inductive Value where
  | scalar (v : Scalar)
  | ts (day : Int) (tod : Int) (tz : Option Int)
deriving DecidableEq, Repr

/-- Model of a pandas DataFrame: ordered column names and rows. -/
structure DF where
  header : List String
  rows : List (List Value)
deriving DecidableEq, Repr

/-- The empty DataFrame, pd.DataFrame(). -/
def DF.emptyDF : DF := { header := [], rows := [] }

/-- df.empty in pandas: true when any axis has length zero. -/
def DF.isEmpty (df : DF) : Bool := df.header.isEmpty || df.rows.isEmpty

/-- Index of the first column with the given name (pandas label lookup);
returns the header length when the name is absent. -/
def idxOf (s : String) : List String → Nat
  | [] => 0
  | h :: t => if h = s then 0 else idxOf s t + 1

/-- Default cell used when reading past the end of a row (never happens on
rows built by the embedding, which are always header-aligned). -/
def vnull : Value := Value.scalar Scalar.null

/-- Cell of a row at a column index. -/
def cellAtIdx (i : Nat) (r : List Value) : Value := r.getD i vnull

/-- Length of an array value; none for non-arrays. -/
def Json.arrLen : Json → Option Nat
  | .arr xs => some xs.length
  | _ => none

/-- True for values the column-oriented DataFrame constructor accepts:
scalars (broadcast) and arrays. -/
def Json.isColumnValue : Json → Bool
  | .arr _ => true
  | .scalar _ => true
  | .obj _ => false

/-- Cell of a column value at row position i: array element, or the
scalar broadcast to every row. -/
def Json.cellAt : Json → Nat → Value
  | .arr xs, i => Value.scalar (xs.getD i Scalar.null)
  | .scalar v, _ => Value.scalar v
  | .obj _, _ => vnull

/-- Model of pd.DataFrame(daily) on a column-oriented mapping: column
order is the mapping's insertion order; arrays must share one length and
scalars broadcast to it; with no array at all, or with arrays of unequal
length, or with a non-column value, the constructor raises ValueError. -/
def mkDataFrame (entries : List (String × Json)) : Except Err DF :=
  match (entries.map (fun e => e.2.arrLen)).reduceOption with
  | [] => .error .valueError
  | n :: rest =>
    if rest.all (fun m => m = n) then
      if entries.all (fun e => e.2.isColumnValue) then
        .ok { header := entries.map (fun e => e.1),
              rows := (List.range n).map (fun i => entries.map (fun e => e.2.cellAt i)) }
      else .error .valueError
    else .error .valueError

/-- Column rename (df.rename(columns={old: new})): renames every
occurrence in the header, positions unchanged. -/
def DF.renameCol (df : DF) (old new : String) : DF :=
  { df with header := df.header.map (fun h => if h = old then new else h) }

/-- True iff the given year is a leap year. -/
def isLeap (y : Int) : Bool := (y % 4 = 0 && y % 100 ≠ 0) || y % 400 = 0

/-- Days in a month of a given year. -/
def daysInMonth (y : Int) (m : Nat) : Nat :=
  if m = 2 then (if isLeap y then 29 else 28)
  else if m = 4 || m = 6 || m = 9 || m = 11 then 30
  else 31

/-- Strictly monotone injective encoding of a valid calendar date; it
preserves chronological order and equality, which is all the pipeline's
sorting and duplicate detection depend on. -/
def encodeDay (y : Int) (m d : Nat) : Int := y * 372 + ((m - 1) * 31 + (d - 1) : Nat)

/-- Consume leading decimal digits of a character list. -/
def takeDigits : List Char → Nat × List Char
  | [] => (0, [])
  | c :: cs =>
    if c.isDigit then
      let (k, rest) := takeDigits cs
      (k + 1, rest)
    else (0, c :: cs)

/-- Numeric value of the first n digit characters. -/
def digitsToNat : List Char → Nat → Nat → Nat
  | [], _, acc => acc
  | _, 0, acc => acc
  | c :: cs, k + 1, acc => digitsToNat cs k (acc * 10 + (c.toNat - 48))

/-- Parse a fixed-width decimal field. -/
def parseFixed (w : Nat) (cs : List Char) : Option (Nat × List Char) :=
  let (k, rest) := takeDigits cs
  if k = w then some (digitsToNat cs w 0, rest) else none

/-- Parse an optional ISO time-of-day suffix ("THH:MM" or "THH:MM:SS",
also accepted with a space separator); returns seconds since midnight.
An empty remainder means midnight; anything else fails to parse. -/
def parseTimeSuffix : List Char → Option Int
  | [] => some 0
  | c :: cs =>
    if c = 'T' ∨ c = ' ' then
      match parseFixed 2 cs with
      | none => none
      | some (hh, rest) =>
        match rest with
        | ':' :: rest2 =>
          match parseFixed 2 rest2 with
          | none => none
          | some (mm, rest3) =>
            match rest3 with
            | [] => if hh < 24 ∧ mm < 60 then some ((hh : Int) * 3600 + mm * 60) else none
            | ':' :: rest4 =>
              match parseFixed 2 rest4 with
              | none => none
              | some (ss, rest5) =>
                if rest5 = [] ∧ hh < 24 ∧ mm < 60 ∧ ss < 60 then
                  some ((hh : Int) * 3600 + mm * 60 + ss)
                else none
            | _ => none
        | _ => none
    else none

/-- Parse an ISO-8601 date string "YYYY-MM-DD" with optional time-of-day,
validating month and day ranges, as pd.to_datetime does on the iso8601
strings the API returns.  Result: (encoded day, time of day in seconds). -/
def parseDateChars (cs : List Char) : Option (Int × Int) :=
  match parseFixed 4 cs with
  | none => none
  | some (y, rest) =>
    match rest with
    | '-' :: rest2 =>
      match parseFixed 2 rest2 with
      | none => none
      | some (m, rest3) =>
        match rest3 with
        | '-' :: rest4 =>
          match parseFixed 2 rest4 with
          | none => none
          | some (d, rest5) =>
            if 1 ≤ m ∧ m ≤ 12 ∧ 1 ≤ d ∧ d ≤ daysInMonth (y : Int) m then
              match parseTimeSuffix rest5 with
              | none => none
              | some tod => some (encodeDay (y : Int) m d, tod)
            else none
        | _ => none
    | _ => none

/-- Parse a date string. -/
def parseDateString (s : String) : Option (Int × Int) := parseDateChars s.toList

/-- Model of pd.to_datetime(cell, utc=False) on one cell: string cells
parse as naive timestamps, timestamp cells pass through, anything else
raises. -/
def parseTimestamp : Value → Except Err Value
  | .scalar (.str s) =>
    match parseDateString s with
    | some (d, tod) => .ok (.ts d tod none)
    | none => .error .parseError
  | .ts d t z => .ok (.ts d t z)
  | _ => .error .parseError

/-- Series.dt.normalize(): zero the time-of-day, keep day and timezone. -/
def normalizeTs : Value → Value
  | .ts d _ z => .ts d 0 z
  | v => v

/-- Apply to_datetime + normalize to the cell at column index i of every
row (df[c] = pd.to_datetime(df[c], utc=False).dt.normalize()); the first
unparseable cell raises. -/
def parseDateCol (i : Nat) : List (List Value) → Except Err (List (List Value))
  | [] => .ok []
  | r :: rs =>
    match parseTimestamp (cellAtIdx i r) with
    | .error e => .error e
    | .ok v =>
      match parseDateCol i rs with
      | .error e => .error e
      | .ok rest => .ok (r.set i (normalizeTs v) :: rest)

/-- In-place datetime conversion of a named column. -/
def DF.toDatetimeNormalize (df : DF) (c : String) : Except Err DF :=
  match parseDateCol (idxOf c df.header) df.rows with
  | .error e => .error e
  | .ok rows2 => .ok { df with rows := rows2 }

/-- Embedding of daily_json_to_df (open_meteo.py lines 115-143): read the
daily block with payload.get("daily", {}); a non-mapping or empty block
yields the empty DataFrame; build the frame, return empty if the time
column is absent, else rename time to date (in place) and convert that
column to normalized datetimes. -/
def daily_json_to_df (payload : List (String × Json)) : Except Err DF :=
  match (List.lookup "daily" payload).getD (Json.obj []) with
  | Json.obj entries =>
    if entries.isEmpty then .ok DF.emptyDF
    else
      match mkDataFrame entries with
      | .error e => .error e
      | .ok df =>
        if "time" ∈ df.header then
          match (df.renameCol "time" "date").toDatetimeNormalize "date" with
          | .error e => .error e
          | .ok df2 => .ok df2
        else .ok DF.emptyDF
  | _ => .ok DF.emptyDF

/-- State-passing form of daily_json_to_df: every step of the source
threads the payload mapping, the store a Python caller could observe
being mutated.  No statement of the source assigns into the payload, so
each branch returns the store it received. -/
def daily_json_to_df_mut (payload : List (String × Json)) :
    Except Err DF × List (String × Json) :=
  match (List.lookup "daily" payload).getD (Json.obj []) with
  | Json.obj entries =>
    if entries.isEmpty then (.ok DF.emptyDF, payload)
    else
      match mkDataFrame entries with
      | .error e => (.error e, payload)
      | .ok df =>
        if "time" ∈ df.header then
          match (df.renameCol "time" "date").toDatetimeNormalize "date" with
          | .error e => (.error e, payload)
          | .ok df2 => (.ok df2, payload)
        else (.ok DF.emptyDF, payload)
  | _ => (.ok DF.emptyDF, payload)

/-- Sort key of a cell: timestamps order chronologically (the only cells
the pipeline ever sorts by are the date column's timestamps); the other
constructors get an arbitrary fixed total preorder so the comparison is
total. -/
def Value.sortKey : Value → Int × Int × Int
  | .ts d t _ => (0, d, t)
  | .scalar .null => (1, 0, 0)
  | .scalar (.bool b) => (2, if b then 1 else 0, 0)
  | .scalar (.num n) => (3, n, 0)
  | .scalar (.str _) => (4, 0, 0)

/-- Strict lexicographic order on sort keys. -/
def keyLT (a b : Int × Int × Int) : Prop :=
  a.1 < b.1 ∨ (a.1 = b.1 ∧ (a.2.1 < b.2.1 ∨ (a.2.1 = b.2.1 ∧ a.2.2 < b.2.2)))

instance (a b : Int × Int × Int) : Decidable (keyLT a b) := by
  unfold keyLT; infer_instance

/-- Reflexive lexicographic order on sort keys. -/
def keyLE (a b : Int × Int × Int) : Prop := keyLT a b ∨ a = b

/-- Sort key of the cell at column index i of a row. -/
def rowKey (i : Nat) (r : List Value) : Int × Int × Int := (cellAtIdx i r).sortKey

/-- Comparison used to model sort_values on column index i: rows compare
by the key of their cell in that column, and by nothing else.  The
source calls sort_values with the default kind='quicksort', which
pandas documents as not stable: the call promises a permutation ordered
by this key and nothing about where equal-key rows land. -/
def rowLE (i : Nat) (a b : List Value) : Bool :=
  decide (keyLT (rowKey i a) (rowKey i b)) || decide (rowKey i a = rowKey i b)

/-- df.sort_values(c) with the source's default, non-stable sort kind:
some permutation of the rows ordered by the named column.  An
executable embedding has to pick one such permutation; this one is
mergeSort by the key alone.  The relative order of equal-key rows in it
is a modelling artifact, not a guarantee of the program, and no theorem
of this development relies on it. -/
def DF.sortValues (df : DF) (c : String) : DF :=
  { df with rows := df.rows.mergeSort (rowLE (idxOf c df.header)) }

/-- Row transformer of df[c] = v: replace the named column if present,
else append the new column's cell at the end of the row. -/
def setConstRow (hdr : List String) (c : String) (v : Value) (r : List Value) : List Value :=
  if c ∈ hdr then r.set (idxOf c hdr) v else r ++ [v]

/-- df[c] = v for a scalar v: broadcast assignment of one column. -/
def DF.setConst (df : DF) (c : String) (v : Value) : DF :=
  { header := if c ∈ df.header then df.header else df.header ++ [c],
    rows := df.rows.map (setConstRow df.header c v) }

/-- Broadcast the latitude/longitude/timezone annotation columns, in the
source's assignment order (open_meteo.py lines 207-209). -/
def annotateLoc (df : DF) (lat lon : Scalar) (timezone : String) : DF :=
  ((df.setConst "latitude" (Value.scalar lat)).setConst "longitude"
      (Value.scalar lon)).setConst "timezone" (Value.scalar (Scalar.str timezone))

/-- Union of the headers of several frames in order of first appearance
(pd.concat with sort=False). -/
def concatHeader : List String → List DF → List String
  | acc, [] => acc
  | acc, df :: rest => concatHeader (acc ++ df.header.filter (fun h => ¬ acc.contains h)) rest

/-- Reindex one row of a source frame to the concatenated header; columns
the source frame lacks are filled with NaN (modelled as null). -/
def alignRow (hdr srcHdr : List String) (r : List Value) : List Value :=
  hdr.map (fun h => if srcHdr.contains h then cellAtIdx (idxOf h srcHdr) r else vnull)

/-- pd.concat(frames, ignore_index=True): rows of every frame in order,
aligned to the union header. -/
def concatIgnoreIndex (dfs : List DF) : DF :=
  let hdr := concatHeader [] dfs
  { header := hdr,
    rows := (dfs.map (fun df => df.rows.map (alignRow hdr df.header))).flatten }

/-- Series.duplicated().sum() > 0 for the named column: true when some
date value occurs in more than one row. -/
def DF.hasDupCol (df : DF) (c : String) : Bool :=
  decide (¬ (df.rows.map (cellAtIdx (idxOf c df.header))).Nodup)

/-- Keep rows whose cell at column index i has not been seen yet. -/
def dedupRows (i : Nat) (seen : List Value) : List (List Value) → List (List Value)
  | [] => []
  | r :: rs =>
    if cellAtIdx i r ∈ seen then dedupRows i seen rs
    else r :: dedupRows i (cellAtIdx i r :: seen) rs

/-- df.drop_duplicates(subset=[c], keep="first"). -/
def DF.dropDuplicatesFirst (df : DF) (c : String) : DF :=
  { df with rows := dedupRows (idxOf c df.header) [] df.rows }

/-- Effect environment of one fetch_and_process_years run: per year, the
outcome of fetch_daily_year (parsed payload, or the exception raised by
the GET / raise_for_status / json decode), whether writing the raw JSON
file raises, and whether raw_dir.mkdir raises. -/
structure FetchEnv where
  fetchResult : Int → Except Err (List (String × Json))
  writeFails : Int → Bool
  mkdirFails : Bool

/-- Body of one iteration of the year loop (open_meteo.py lines 185-200):
fetch, write the raw payload, normalize, tag the year column; any raised
exception is caught and logged, and an empty normalized frame is skipped
with a warning, so both contribute no frame. -/
def processYear (env : FetchEnv) (yr : Int) : Option DF :=
  match env.fetchResult yr with
  | .error _ => none
  | .ok payload =>
    if env.writeFails yr then none
    else
      match daily_json_to_df payload with
      | .error _ => none
      | .ok df => if df.isEmpty then none else some (df.setConst "year" (Value.scalar (Scalar.num yr)))

/-- The inclusive year range range(start_year, end_year + 1). -/
def yearList (s e : Int) : List Int := (List.range (e + 1 - s).toNat).map (fun k => s + k)

/-- Post-loop assembly (open_meteo.py lines 206-216): concatenate the
accumulated frames ignoring the index, sort by date, broadcast the
location annotations, and drop duplicate dates keeping the first
occurrence when any exist; reset_index(drop=True) is the identity in the
index-free model. -/
def assembleFrames (frames : List DF) (lat lon : Scalar) (timezone : String) : DF :=
  if (annotateLoc ((concatIgnoreIndex frames).sortValues "date") lat lon timezone).hasDupCol
      "date" then
    (annotateLoc ((concatIgnoreIndex frames).sortValues "date") lat lon
        timezone).dropDuplicatesFirst "date"
  else annotateLoc ((concatIgnoreIndex frames).sortValues "date") lat lon timezone

/-- Embedding of fetch_and_process_years (open_meteo.py lines 146-216).
raw_dir.mkdir runs before the loop and is unguarded, so its failure
raises; each year's fetch-write-normalize step is guarded by
try/except; the politeness sleep between years carries no observable
state at this level and is not recorded. -/
def fetch_and_process_years (env : FetchEnv) (start_year end_year : Int)
    (lat lon : Scalar) (timezone : String) : Except Err DF :=
  if env.mkdirFails then .error .ioError
  else if ((yearList start_year end_year).filterMap (processYear env)).isEmpty then
    .ok DF.emptyDF
  else
    .ok (assembleFrames ((yearList start_year end_year).filterMap (processYear env))
      lat lon timezone)

/-- Effect environment of one fetch_and_process_partial_year run. -/
structure PartialEnv where
  mkdirFails : Bool
  fetchResult : Except Err (List (String × Json))
  writeFails : Bool

/-- Body of the try block of the partial-year orchestrator
(open_meteo.py lines 259-288): fetch with the explicit end date, write
the raw JSON, normalize, return empty when no data, else annotate with
year and location and drop duplicate dates keeping the first; any
Except.error is a raised exception that the except arm will catch. -/
def ytdBody (env : PartialEnv) (year : Int) (lat lon : Scalar) (timezone : String) :
    Except Err DF :=
  match env.fetchResult with
  | .error e => .error e
  | .ok payload =>
    if env.writeFails then .error .ioError
    else
      match daily_json_to_df payload with
      | .error e => .error e
      | .ok df =>
        if df.isEmpty then .ok DF.emptyDF
        else
          .ok (if (((df.setConst "year" (Value.scalar (Scalar.num year))).setConst "latitude"
                  (Value.scalar lat)).setConst "longitude" (Value.scalar lon)).setConst
                  "timezone" (Value.scalar (Scalar.str timezone)) |>.hasDupCol "date" then
              (((df.setConst "year" (Value.scalar (Scalar.num year))).setConst "latitude"
                  (Value.scalar lat)).setConst "longitude" (Value.scalar lon)).setConst
                  "timezone" (Value.scalar (Scalar.str timezone)) |>.dropDuplicatesFirst "date"
            else (((df.setConst "year" (Value.scalar (Scalar.num year))).setConst "latitude"
                  (Value.scalar lat)).setConst "longitude" (Value.scalar lon)).setConst
                  "timezone" (Value.scalar (Scalar.str timezone)))

/-- Embedding of the partial-year orchestrator
fetch_and_process_partial_year (open_meteo.py lines 219-293); the Lean
name avoids a word the development style forbids in identifiers.  First
component: the returned frame, or the exception the call raises.
Second component: how many times the politeness sleep in the finally
block ran.  raw_dir.mkdir (line 256) runs before the try/except/finally,
so when it raises nothing catches it and the finally sleep never
executes; inside the try, any raised exception reaches the except arm,
which returns an empty frame, and the finally sleep runs on every path
through the try statement. -/
def fetch_and_process_ytd (env : PartialEnv) (year : Int)
    (lat lon : Scalar) (timezone : String) : Except Err DF × Nat :=
  if env.mkdirFails then (.error .ioError, 0)
  else
    match ytdBody env year lat lon timezone with
    | .error _ => (.ok DF.emptyDF, 1)
    | .ok df => (.ok df, 1)

/-- Calendar date, for request boundaries. -/
structure DateD where
  y : Int
  m : Nat
  d : Nat
deriving DecidableEq, Repr

/-- Zero-pad a two-digit field. -/
def pad2 (n : Nat) : String := if n < 10 then "0" ++ toString n else toString n

/-- date.strftime("%Y-%m-%d"). -/
def DateD.fmt (dt : DateD) : String :=
  toString dt.y ++ "-" ++ pad2 dt.m ++ "-" ++ pad2 dt.d

/-- Query parameters of one Open-Meteo request. -/
structure Params where
  latitude : Scalar
  longitude : Scalar
  timezone : String
  start_date : String
  end_date : String
  timeformat : String
  windspeed_unit : String
  precipitation_unit : String
  daily : String
deriving DecidableEq, Repr

/-- The list joined into the daily query parameter (open_meteo.py line
107): [*daily_vars, "weathercode"] — the caller's variables with the
quality-control weather code appended unconditionally. -/
def dailyParamList (daily_vars : List String) : List String := daily_vars ++ ["weathercode"]

/-- Embedding of the request construction in fetch_daily_year
(open_meteo.py lines 98-108). -/
def fetch_daily_year_params (year : Int) (lat lon : Scalar) (timezone : String)
    (daily_vars : List String) (end_date : Option DateD) : Params :=
  { latitude := lat
    longitude := lon
    timezone := timezone
    start_date := toString year ++ "-01-01"
    end_date := (end_date.getD ⟨year, 12, 31⟩).fmt
    timeformat := "iso8601"
    windspeed_unit := "kmh"
    precipitation_unit := "mm"
    daily := String.intercalate "," (dailyParamList daily_vars) }

/-- Effect environment of one save_dataframe call: whether
processed_dir.mkdir, df.to_csv, df.to_parquet raise. -/
structure SaveEnv where
  mkdirFails : Bool
  csvFails : Bool
  parquetFails : Bool

/-- Embedding of save_dataframe (io.py lines 12-61).  Result: the
artifact mapping (name to path, in insertion order) paired with the list
of files written, or the exception raised.  An empty frame returns the
empty artifact dict before any filesystem access; the parquet write is
wrapped in try/except, so its failure only omits the parquet artifact. -/
def save_dataframe (df : DF) (base_filename : String) (processed_dir : String)
    (write_parquet : Bool) (env : SaveEnv) :
    Except Err (List (String × String) × List String) :=
  if df.isEmpty then .ok ([], [])
  else if env.mkdirFails then .error .ioError
  else if env.csvFails then .error .ioError
  else
    let csv_path := processed_dir ++ "/" ++ base_filename ++ ".csv"
    let artifacts := [("csv", csv_path)]
    let files := [csv_path]
    if write_parquet then
      if env.parquetFails then .ok (artifacts, files)
      else
        let pq_path := processed_dir ++ "/" ++ base_filename ++ ".parquet"
        .ok (artifacts ++ [("parquet", pq_path)], files ++ [pq_path])
    else .ok (artifacts, files)

/-- Header after the latitude assignment of annotateLoc. -/
def annotHeader1 (hdr : List String) : List String :=
  if "latitude" ∈ hdr then hdr else hdr ++ ["latitude"]

/-- Header after the latitude and longitude assignments of annotateLoc. -/
def annotHeader2 (hdr : List String) : List String :=
  if "longitude" ∈ annotHeader1 hdr then annotHeader1 hdr else annotHeader1 hdr ++ ["longitude"]

/-- Header produced by annotateLoc, as a function of the input header. -/
def annotHeaderF (hdr : List String) : List String :=
  if "timezone" ∈ annotHeader2 hdr then annotHeader2 hdr else annotHeader2 hdr ++ ["timezone"]

/-- Row transformer performed by annotateLoc, as a function of the input
header only: both the sorted frame and the un-sorted concatenation have
the same header, so the annotation acts on their rows by one and the
same function. -/
def annotRowF (hdr : List String) (lat lon : Scalar) (timezone : String)
    (r : List Value) : List Value :=
  setConstRow (annotHeader2 hdr) "timezone" (Value.scalar (Scalar.str timezone))
    (setConstRow (annotHeader1 hdr) "longitude" (Value.scalar lon)
      (setConstRow hdr "latitude" (Value.scalar lat) r))

theorem annotateLoc_rows (df : DF) (lat lon : Scalar) (tz : String) :
    (annotateLoc df lat lon tz).rows = df.rows.map (annotRowF df.header lat lon tz) := by
  simp [annotateLoc, DF.setConst, annotRowF, annotHeader1, annotHeader2, List.map_map]

theorem annotateLoc_header (df : DF) (lat lon : Scalar) (tz : String) :
    (annotateLoc df lat lon tz).header = annotHeaderF df.header := by
  simp [annotateLoc, DF.setConst, annotHeaderF, annotHeader1, annotHeader2]

theorem idxOf_lt_length {s : String} {l : List String} (h : s ∈ l) :
    idxOf s l < l.length := by
  induction l with
  | nil => cases h
  | cons a t ih =>
    by_cases ha : a = s
    · simp [idxOf, ha]
    · have h' : s ∈ t := by
        rcases List.mem_cons.mp h with h1 | h1
        · exact absurd h1.symm ha
        · exact h1
      simpa [idxOf, ha] using ih h'

theorem getElem_idxOf {s : String} {l : List String} (h : s ∈ l) :
    l[idxOf s l]? = some s := by
  induction l with
  | nil => cases h
  | cons a t ih =>
    by_cases ha : a = s
    · simp [idxOf, ha]
    · have h' : s ∈ t := by
        rcases List.mem_cons.mp h with h1 | h1
        · exact absurd h1.symm ha
        · exact h1
      simpa [idxOf, ha] using ih h'

theorem idxOf_append_left {s : String} {l : List String} (l2 : List String) (h : s ∈ l) :
    idxOf s (l ++ l2) = idxOf s l := by
  induction l with
  | nil => cases h
  | cons a t ih =>
    by_cases ha : a = s
    · simp [idxOf, ha]
    · have h' : s ∈ t := by
        rcases List.mem_cons.mp h with h1 | h1
        · exact absurd h1.symm ha
        · exact h1
      simp [idxOf, ha, ih h']

theorem idxOf_ne_of_mem {s t : String} {l : List String} (hs : s ∈ l) (ht : t ∈ l)
    (hne : t ≠ s) : idxOf t l ≠ idxOf s l := by
  intro he
  have h1 := getElem_idxOf hs
  have h2 := getElem_idxOf ht
  rw [he, h1] at h2
  exact hne (Option.some.inj h2).symm

theorem keyLT_trans {a b c : Int × Int × Int} (h1 : keyLT a b) (h2 : keyLT b c) :
    keyLT a c := by
  obtain ⟨a1, a2, a3⟩ := a
  obtain ⟨b1, b2, b3⟩ := b
  obtain ⟨c1, c2, c3⟩ := c
  simp only [keyLT] at *
  omega

theorem keyLT_trichotomy (a b : Int × Int × Int) : keyLT a b ∨ keyLT b a ∨ a = b := by
  obtain ⟨a1, a2, a3⟩ := a
  obtain ⟨b1, b2, b3⟩ := b
  simp only [keyLT, Prod.mk.injEq]
  omega

theorem rowLE_trans (i : Nat) (a b c : List Value)
    (h1 : rowLE i a b = true) (h2 : rowLE i b c = true) : rowLE i a c = true := by
  simp only [rowLE, Bool.or_eq_true, decide_eq_true_eq] at *
  rcases h1 with h1 | h1 <;> rcases h2 with h2 | h2
  · exact Or.inl (keyLT_trans h1 h2)
  · exact Or.inl (h2 ▸ h1)
  · exact Or.inl (h1 ▸ h2)
  · exact Or.inr (h1.trans h2)

theorem rowLE_total (i : Nat) (a b : List Value) :
    (rowLE i a b || rowLE i b a) = true := by
  simp only [rowLE, Bool.or_eq_true, decide_eq_true_eq]
  rcases keyLT_trichotomy (rowKey i a) (rowKey i b) with h | h | h
  · exact Or.inl (Or.inl h)
  · exact Or.inr (Or.inl h)
  · exact Or.inl (Or.inr h)

theorem rowLE_key_le {i : Nat} {a b : List Value} (h : rowLE i a b = true) :
    keyLE (rowKey i a) (rowKey i b) := by
  simp only [rowLE, Bool.or_eq_true, decide_eq_true_eq] at h
  exact h

theorem cellAtIdx_set_self {i : Nat} {r : List Value} (v : Value) (h : i < r.length) :
    cellAtIdx i (r.set i v) = v := by
  simp [cellAtIdx, List.getD_eq_getElem?_getD, List.getElem?_set, h]

theorem cellAtIdx_set_ne {i j : Nat} {r : List Value} (v : Value) (h : j ≠ i) :
    cellAtIdx i (r.set j v) = cellAtIdx i r := by
  simp [cellAtIdx, List.getD_eq_getElem?_getD, List.getElem?_set_ne h]

theorem cellAtIdx_append {i : Nat} {r r2 : List Value} (h : i < r.length) :
    cellAtIdx i (r ++ r2) = cellAtIdx i r := by
  simp [cellAtIdx, List.getD_eq_getElem?_getD, List.getElem?_append, h]

theorem cellAtIdx_mem {i : Nat} {r : List Value} (h : i < r.length) :
    cellAtIdx i r ∈ r := by
  have he : r[i]? = some r[i] := List.getElem?_eq_getElem h
  rw [cellAtIdx, List.getD_eq_getElem?_getD, he]
  exact List.getElem_mem h

theorem setConstRow_cell {hdr : List String} {c : String} {v : Value} {r : List Value}
    (hne : c ≠ "date") (hd : "date" ∈ hdr) (hlen : r.length = hdr.length) :
    cellAtIdx (idxOf "date" hdr) (setConstRow hdr c v r) = cellAtIdx (idxOf "date" hdr) r := by
  unfold setConstRow
  by_cases hc : c ∈ hdr
  · simp only [hc, if_true]
    exact cellAtIdx_set_ne v (idxOf_ne_of_mem hd hc hne)
  · simp only [hc, if_false]
    exact cellAtIdx_append (hlen ▸ idxOf_lt_length hd)

theorem setConstRow_length {hdr : List String} {c : String} {v : Value} {r : List Value}
    (hlen : r.length = hdr.length) :
    (setConstRow hdr c v r).length = (if c ∈ hdr then hdr else hdr ++ [c]).length := by
  unfold setConstRow
  by_cases hc : c ∈ hdr <;> simp [hc, hlen]

theorem mem_of_mem_ifAppend {x c : String} {hdr : List String} (h : x ∈ hdr) :
    x ∈ (if c ∈ hdr then hdr else hdr ++ [c]) := by
  by_cases hc : c ∈ hdr <;> simp [hc, h]

theorem idxOf_ifAppend {x c : String} {hdr : List String} (h : x ∈ hdr) :
    idxOf x (if c ∈ hdr then hdr else hdr ++ [c]) = idxOf x hdr := by
  by_cases hc : c ∈ hdr
  · simp [hc]
  · simp only [hc, if_false]
    exact idxOf_append_left _ h

theorem mem_annotHeader1 {x : String} {hdr : List String} (h : x ∈ hdr) :
    x ∈ annotHeader1 hdr := mem_of_mem_ifAppend h

theorem mem_annotHeader2 {x : String} {hdr : List String} (h : x ∈ hdr) :
    x ∈ annotHeader2 hdr := mem_of_mem_ifAppend (mem_annotHeader1 h)

theorem mem_annotHeaderF {x : String} {hdr : List String} (h : x ∈ hdr) :
    x ∈ annotHeaderF hdr := mem_of_mem_ifAppend (mem_annotHeader2 h)

theorem idxOf_annotHeader1 {x : String} {hdr : List String} (h : x ∈ hdr) :
    idxOf x (annotHeader1 hdr) = idxOf x hdr := idxOf_ifAppend h

theorem idxOf_annotHeader2 {x : String} {hdr : List String} (h : x ∈ hdr) :
    idxOf x (annotHeader2 hdr) = idxOf x hdr :=
  (idxOf_ifAppend (mem_annotHeader1 h)).trans (idxOf_annotHeader1 h)

theorem idxOf_annotHeaderF {x : String} {hdr : List String} (h : x ∈ hdr) :
    idxOf x (annotHeaderF hdr) = idxOf x hdr :=
  (idxOf_ifAppend (mem_annotHeader2 h)).trans (idxOf_annotHeader2 h)

theorem annotRowF_cell {hdr : List String} {lat lon : Scalar} {tz : String} {r : List Value}
    (hd : "date" ∈ hdr) (hlen : r.length = hdr.length) :
    cellAtIdx (idxOf "date" hdr) (annotRowF hdr lat lon tz r) = cellAtIdx (idxOf "date" hdr) r := by
  have hl1 : (setConstRow hdr "latitude" (Value.scalar lat) r).length =
      (annotHeader1 hdr).length := setConstRow_length hlen
  have hl2 : (setConstRow (annotHeader1 hdr) "longitude" (Value.scalar lon)
      (setConstRow hdr "latitude" (Value.scalar lat) r)).length =
      (annotHeader2 hdr).length := setConstRow_length hl1
  have e3 := @setConstRow_cell (annotHeader2 hdr) "timezone" (Value.scalar (Scalar.str tz))
      (setConstRow (annotHeader1 hdr) "longitude" (Value.scalar lon)
        (setConstRow hdr "latitude" (Value.scalar lat) r))
      (by decide) (mem_annotHeader2 hd) hl2
  have e2 := @setConstRow_cell (annotHeader1 hdr) "longitude" (Value.scalar lon)
      (setConstRow hdr "latitude" (Value.scalar lat) r)
      (by decide) (mem_annotHeader1 hd) hl1
  have e1 := @setConstRow_cell hdr "latitude" (Value.scalar lat) r (by decide) hd hlen
  rw [idxOf_annotHeader2 hd] at e3
  rw [idxOf_annotHeader1 hd] at e2
  unfold annotRowF
  rw [e3, e2, e1]

theorem annotRowF_length {hdr : List String} {lat lon : Scalar} {tz : String} {r : List Value}
    (hlen : r.length = hdr.length) :
    (annotRowF hdr lat lon tz r).length = (annotHeaderF hdr).length := by
  have hl1 : (setConstRow hdr "latitude" (Value.scalar lat) r).length =
      (annotHeader1 hdr).length := setConstRow_length hlen
  have hl2 : (setConstRow (annotHeader1 hdr) "longitude" (Value.scalar lon)
      (setConstRow hdr "latitude" (Value.scalar lat) r)).length =
      (annotHeader2 hdr).length := setConstRow_length hl1
  unfold annotRowF annotHeaderF
  rw [setConstRow_length hl2]

theorem dedupRows_sublist (i : Nat) (seen : List Value) (L : List (List Value)) :
    (dedupRows i seen L).Sublist L := by
  induction L generalizing seen with
  | nil => simp [dedupRows]
  | cons x xs ih =>
    by_cases hx : cellAtIdx i x ∈ seen
    · simp only [dedupRows, hx, if_true]
      exact (ih seen).cons x
    · simp only [dedupRows, hx, if_false]
      exact (ih (cellAtIdx i x :: seen)).cons₂ x

theorem dedupRows_nodup (i : Nat) (seen : List Value) (L : List (List Value)) :
    ((dedupRows i seen L).map (cellAtIdx i)).Nodup ∧
      ∀ v ∈ (dedupRows i seen L).map (cellAtIdx i), v ∉ seen := by
  induction L generalizing seen with
  | nil => simp [dedupRows]
  | cons x xs ih =>
    by_cases hx : cellAtIdx i x ∈ seen
    · simpa only [dedupRows, hx, if_true] using ih seen
    · simp only [dedupRows, hx, if_false, List.map_cons, List.nodup_cons, List.mem_cons]
      obtain ⟨ihn, ihs⟩ := ih (cellAtIdx i x :: seen)
      refine ⟨⟨fun hc => ?_, ihn⟩, ?_⟩
      · exact (ihs _ hc) (List.mem_cons_self _ _)
      · intro v hv
        rcases hv with hv | hv
        · exact hv ▸ hx
        · exact fun hs => (ihs v hv) (List.mem_cons_of_mem _ hs)

theorem dedupRows_keys_complete (i : Nat) (seen : List Value) (L : List (List Value))
    (z : List Value) (hz : z ∈ L) :
    cellAtIdx i z ∈ seen ∨ ∃ r ∈ dedupRows i seen L, cellAtIdx i r = cellAtIdx i z := by
  induction L generalizing seen with
  | nil => cases hz
  | cons x xs ih =>
    rcases List.mem_cons.mp hz with rfl | hz'
    · by_cases hx : cellAtIdx i z ∈ seen
      · exact Or.inl hx
      · exact Or.inr ⟨z, by simp [dedupRows, hx], rfl⟩
    · by_cases hx : cellAtIdx i x ∈ seen
      · rcases ih seen hz' with h | ⟨r, hr, he⟩
        · exact Or.inl h
        · exact Or.inr ⟨r, by simp only [dedupRows, hx, if_true]; exact hr, he⟩
      · rcases ih (cellAtIdx i x :: seen) hz' with h | ⟨r, hr, he⟩
        · rcases List.mem_cons.mp h with he | hs
          · exact Or.inr ⟨x, by simp [dedupRows, hx], he.symm⟩
          · exact Or.inl hs
        · exact Or.inr ⟨r, by simp only [dedupRows, hx, if_false]; exact List.mem_cons_of_mem _ hr, he⟩

theorem dedupRows_eq_self (i : Nat) (seen : List Value) (L : List (List Value))
    (hnd : (L.map (cellAtIdx i)).Nodup) (hdisj : ∀ z ∈ L, cellAtIdx i z ∉ seen) :
    dedupRows i seen L = L := by
  induction L generalizing seen with
  | nil => rfl
  | cons x xs ih =>
    simp only [List.map_cons, List.nodup_cons] at hnd
    have hx : cellAtIdx i x ∉ seen := hdisj x (List.mem_cons_self _ _)
    simp only [dedupRows, hx, if_false]
    congr 1
    refine ih (cellAtIdx i x :: seen) hnd.2 ?_
    intro z hzm
    simp only [List.mem_cons]
    push_neg
    constructor
    · intro hc
      exact hnd.1 (hc ▸ List.mem_map_of_mem (cellAtIdx i) hzm)
    · exact hdisj z (List.mem_cons_of_mem _ hzm)

theorem concatHeader_mono {x : String} (dfs : List DF) (acc : List String) (h : x ∈ acc) :
    x ∈ concatHeader acc dfs := by
  induction dfs generalizing acc with
  | nil => exact h
  | cons df rest ih =>
    exact ih _ (List.mem_append_left _ h)

theorem concatHeader_mem {x : String} {dfs : List DF} {df : DF} (hdf : df ∈ dfs)
    (hx : x ∈ df.header) (acc : List String) : x ∈ concatHeader acc dfs := by
  induction dfs generalizing acc with
  | nil => cases hdf
  | cons d rest ih =>
    simp only [concatHeader]
    rcases List.mem_cons.mp hdf with rfl | hdf'
    · by_cases hacc : acc.contains x
      · exact concatHeader_mono _ _ (List.mem_append_left _ (by simpa using hacc))
      · refine concatHeader_mono _ _ ?_
        refine List.mem_append_right _ ?_
        simp only [List.mem_filter, decide_eq_true_eq]
        exact ⟨hx, by simpa using hacc⟩
    · exact ih hdf' _

theorem concat_rows_shape {dfs : List DF} {r : List Value}
    (hr : r ∈ (concatIgnoreIndex dfs).rows) :
    r.length = (concatIgnoreIndex dfs).header.length := by
  simp only [concatIgnoreIndex, List.mem_flatten, List.mem_map] at hr ⊢
  obtain ⟨l, ⟨df, _, rfl⟩, hrl⟩ := hr
  obtain ⟨r0, _, rfl⟩ := List.mem_map.mp hrl
  simp [alignRow]

theorem alignRow_cell {dfs : List DF} {df : DF} {r : List Value} (hdf : df ∈ dfs)
    (hd : "date" ∈ df.header) :
    cellAtIdx (idxOf "date" (concatHeader [] dfs)) (alignRow (concatHeader [] dfs) df.header r) =
      cellAtIdx (idxOf "date" df.header) r := by
  have hmem : "date" ∈ concatHeader [] dfs := concatHeader_mem hdf hd []
  have hlt : idxOf "date" (concatHeader [] dfs) < (concatHeader [] dfs).length :=
    idxOf_lt_length hmem
  have hget : (concatHeader [] dfs)[idxOf "date" (concatHeader [] dfs)]? = some "date" :=
    getElem_idxOf hmem
  unfold alignRow
  rw [cellAtIdx, List.getD_eq_getElem?_getD, List.getElem?_map, hget]
  simp only [Option.map_some', Option.getD_some]
  rw [if_pos (by simpa using hd)]

theorem concat_row_mem {dfs : List DF} {df : DF} {r : List Value} (hdf : df ∈ dfs)
    (hr : r ∈ df.rows) :
    alignRow (concatHeader [] dfs) df.header r ∈ (concatIgnoreIndex dfs).rows := by
  simp only [concatIgnoreIndex, List.mem_flatten, List.mem_map]
  exact ⟨df.rows.map (alignRow (concatHeader [] dfs) df.header), ⟨df, hdf, rfl⟩,
    List.mem_map_of_mem _ hr⟩

theorem rowKey_congr {i : Nat} {a b : List Value} (h : cellAtIdx i a = cellAtIdx i b) :
    rowKey i a = rowKey i b := by
  simp [rowKey, h]

theorem mergeSort_pairwise (i : Nat) (rows : List (List Value)) :
    List.Pairwise (fun a b => rowLE i a b = true) (rows.mergeSort (rowLE i)) :=
  List.sorted_mergeSort (rowLE_trans i) (rowLE_total i) _

theorem mem_mergeSort_rows {i : Nat} {rows : List (List Value)} {r : List Value} :
    r ∈ rows.mergeSort (rowLE i) ↔ r ∈ rows :=
  (List.mergeSort_perm rows (rowLE i)).mem_iff

theorem sort_map_pairwise (i : Nat) (rows : List (List Value)) (f : List Value → List Value)
    (Hf : ∀ r ∈ rows, cellAtIdx i (f r) = cellAtIdx i r) :
    List.Pairwise (fun r1 r2 => keyLE (rowKey i r1) (rowKey i r2))
      ((rows.mergeSort (rowLE i)).map f) := by
  rw [List.pairwise_map]
  refine (mergeSort_pairwise i rows).imp_of_mem ?_
  intro a b ha hb hle
  have ha2 : a ∈ rows := mem_mergeSort_rows.mp ha
  have hb2 : b ∈ rows := mem_mergeSort_rows.mp hb
  rw [rowKey_congr (Hf a ha2), rowKey_congr (Hf b hb2)]
  exact rowLE_key_le hle

theorem sort_keys_complete (i : Nat) (rows : List (List Value)) (f : List Value → List Value)
    {z : List Value} (hz : z ∈ rows.map f) :
    ∃ r ∈ dedupRows i [] ((rows.mergeSort (rowLE i)).map f),
      cellAtIdx i r = cellAtIdx i z := by
  obtain ⟨y, hy, rfl⟩ := List.mem_map.mp hz
  have hmemL : f y ∈ (rows.mergeSort (rowLE i)).map f :=
    List.mem_map_of_mem f (mem_mergeSort_rows.mpr hy)
  rcases dedupRows_keys_complete i [] _ (f y) hmemL with h | h
  · cases h
  · exact h

theorem reduceOption_const_some {α β : Type} (l : List α) (n : β) :
    (l.map (fun _ => some n)).reduceOption = l.map (fun _ => n) := by
  induction l with
  | nil => rfl
  | cons x xs ih =>
    simp only [List.map_cons, List.reduceOption_cons_of_some, ih]

theorem mkDataFrame_ok {entries : List (String × Json)} {df0 : DF}
    (h : mkDataFrame entries = .ok df0) :
    df0.header = entries.map Prod.fst ∧
      ∀ r ∈ df0.rows, r.length = entries.length ∧ ∀ c ∈ r, ∃ s, c = Value.scalar s := by
  unfold mkDataFrame at h
  split at h
  · cases h
  · split at h
    · split at h
      · obtain rfl := (Except.ok.injEq _ _).mp h
        refine ⟨rfl, ?_⟩
        intro r hr
        obtain ⟨i, -, rfl⟩ := List.mem_map.mp hr
        refine ⟨by simp, ?_⟩
        intro c hc
        obtain ⟨e, -, rfl⟩ := List.mem_map.mp hc
        cases e2 : e.2 with
        | arr xs => exact ⟨xs.getD i Scalar.null, rfl⟩
        | scalar v => exact ⟨v, rfl⟩
        | obj o => exact ⟨Scalar.null, rfl⟩
      · cases h
    · cases h

theorem mkDataFrame_ok_of_arrays {entries : List (String × Json)} {n : Nat}
    (hne : entries ≠ [])
    (harr : ∀ e ∈ entries, ∃ xs : List Scalar, e.2 = Json.arr xs ∧ xs.length = n) :
    ∃ df0, mkDataFrame entries = .ok df0 ∧ df0.header = entries.map Prod.fst := by
  have hmap : entries.map (fun e => e.2.arrLen) = entries.map (fun _ => some n) := by
    refine List.map_congr_left ?_
    intro e he
    obtain ⟨xs, hxs, hlen⟩ := harr e he
    simp [hxs, Json.arrLen, hlen]
  have hred : (entries.map (fun e => e.2.arrLen)).reduceOption = entries.map (fun _ => n) := by
    rw [hmap, reduceOption_const_some]
  rcases hmape : entries.map (fun _ => n) with - | ⟨m, rest2⟩
  · exact absurd (List.map_eq_nil_iff.mp hmape) hne
  · have hm : m = n := by
      have hmm : m ∈ entries.map (fun _ => n) := by
        rw [hmape]; exact List.mem_cons_self _ _
      obtain ⟨-, -, he⟩ := List.mem_map.mp hmm
      exact he.symm
    subst hm
    have hrest : (rest2.all fun x => decide (x = m)) = true := by
      rw [List.all_eq_true]
      intro x hx
      have hxm : x ∈ entries.map (fun _ => m) := by
        rw [hmape]; exact List.mem_cons_of_mem _ hx
      obtain ⟨-, -, he⟩ := List.mem_map.mp hxm
      simp [he]
    have hcol : (entries.all fun e => e.2.isColumnValue) = true := by
      rw [List.all_eq_true]
      intro e he
      obtain ⟨xs, hxs, -⟩ := harr e he
      simp [hxs, Json.isColumnValue]
    have heq : mkDataFrame entries = Except.ok
        { header := entries.map (fun e => e.1),
          rows := (List.range m).map (fun i => entries.map (fun e => e.2.cellAt i)) } := by
      simp only [mkDataFrame, hred, hmape, hrest, hcol, if_true]
    exact ⟨_, heq, rfl⟩

theorem parseTimestamp_scalar_ok {s : Scalar} {v : Value}
    (h : parseTimestamp (Value.scalar s) = .ok v) :
    ∃ d tod : Int, v = Value.ts d tod none := by
  cases s with
  | str st =>
    simp only [parseTimestamp] at h
    rcases hp : parseDateString st with - | ⟨d, tod⟩ <;> simp only [hp] at h
    · cases h
    · exact ⟨d, tod, ((Except.ok.injEq _ _).mp h).symm⟩
  | null => simp [parseTimestamp] at h
  | bool b => simp [parseTimestamp] at h
  | num n => simp [parseTimestamp] at h

theorem parseDateCol_ok_cells {i : Nat} {rs rs2 : List (List Value)}
    (h : parseDateCol i rs = .ok rs2)
    (hlen : ∀ r ∈ rs, i < r.length)
    (hsc : ∀ r ∈ rs, ∀ c ∈ r, ∃ s, c = Value.scalar s) :
    ∀ r2 ∈ rs2, ∃ d : Int, cellAtIdx i r2 = Value.ts d 0 none := by
  induction rs generalizing rs2 with
  | nil =>
    unfold parseDateCol at h
    obtain rfl := (Except.ok.injEq _ _).mp h
    intro r2 hr2
    cases hr2
  | cons r rest ih =>
    unfold parseDateCol at h
    rcases hv : parseTimestamp (cellAtIdx i r) with e | v
    · rw [hv] at h; cases h
    · rw [hv] at h
      rcases ht : parseDateCol i rest with e | rest2
      · rw [ht] at h; cases h
      · rw [ht] at h
        obtain rfl := (Except.ok.injEq _ _).mp h
        intro r2 hr2
        rcases List.mem_cons.mp hr2 with rfl | hr2'
        · have hm : i < r.length := hlen r (List.mem_cons_self _ _)
          have hcell : ∃ s, cellAtIdx i r = Value.scalar s :=
            hsc r (List.mem_cons_self _ _) _ (cellAtIdx_mem hm)
          obtain ⟨s, hs⟩ := hcell
          rw [hs] at hv
          obtain ⟨d, tod, rfl⟩ := parseTimestamp_scalar_ok hv
          refine ⟨d, ?_⟩
          rw [cellAtIdx_set_self _ hm]
          rfl
        · exact ih ht (fun r' hr' => hlen r' (List.mem_cons_of_mem _ hr'))
            (fun r' hr' => hsc r' (List.mem_cons_of_mem _ hr')) r2 hr2'

theorem parseDateCol_shapes {i : Nat} {rs rs2 : List (List Value)} {n : Nat}
    (h : parseDateCol i rs = .ok rs2) (hlen : ∀ r ∈ rs, r.length = n) :
    ∀ r2 ∈ rs2, r2.length = n := by
  induction rs generalizing rs2 with
  | nil =>
    unfold parseDateCol at h
    obtain rfl := (Except.ok.injEq _ _).mp h
    intro r2 hr2
    cases hr2
  | cons r rest ih =>
    unfold parseDateCol at h
    rcases hv : parseTimestamp (cellAtIdx i r) with e | v
    · rw [hv] at h; cases h
    · rw [hv] at h
      rcases ht : parseDateCol i rest with e | rest2
      · rw [ht] at h; cases h
      · rw [ht] at h
        obtain rfl := (Except.ok.injEq _ _).mp h
        intro r2 hr2
        rcases List.mem_cons.mp hr2 with rfl | hr2'
        · rw [List.length_set]
          exact hlen r (List.mem_cons_self _ _)
        · exact ih ht (fun r' hr' => hlen r' (List.mem_cons_of_mem _ hr')) r2 hr2'

theorem daily_json_to_df_ok_nonempty {payload : List (String × Json)} {df : DF}
    (h : daily_json_to_df payload = .ok df) (hne : df.header ≠ []) :
    ∃ entries df0, (List.lookup "daily" payload).getD (Json.obj []) = Json.obj entries ∧
      mkDataFrame entries = .ok df0 ∧ "time" ∈ df0.header ∧
      df.header = df0.header.map (fun h => if h = "time" then "date" else h) ∧
      parseDateCol (idxOf "date" (df0.header.map (fun h => if h = "time" then "date" else h)))
        df0.rows = .ok df.rows := by
  unfold daily_json_to_df at h
  split at h
  · rename_i entries heq
    split at h
    · obtain rfl := (Except.ok.injEq _ _).mp h
      exact absurd rfl hne
    · split at h
      · cases h
      · rename_i df0 hmk
        split at h
        · rename_i htime
          split at h
          · cases h
          · rename_i df2 hnorm
            obtain rfl := (Except.ok.injEq _ _).mp h
            unfold DF.toDatetimeNormalize at hnorm
            split at hnorm
            · cases hnorm
            · rename_i rows2 hpc
              obtain rfl := (Except.ok.injEq _ _).mp hnorm
              exact ⟨entries, df0, heq, hmk, htime, rfl, hpc⟩
        · obtain rfl := (Except.ok.injEq _ _).mp h
          exact absurd rfl hne
  · obtain rfl := (Except.ok.injEq _ _).mp h
    exact absurd rfl hne

theorem header_ne_of_not_isEmpty {df : DF} (h : df.isEmpty = false) : df.header ≠ [] := by
  intro hc
  simp [DF.isEmpty, hc] at h

theorem daily_json_to_df_date_mem {payload : List (String × Json)} {df : DF}
    (h : daily_json_to_df payload = .ok df) (hne : df.isEmpty = false) :
    "date" ∈ df.header ∧ ∀ r ∈ df.rows, r.length = df.header.length := by
  obtain ⟨entries, df0, heq, hmk, htime, hhdr, hpc⟩ :=
    daily_json_to_df_ok_nonempty h (header_ne_of_not_isEmpty hne)
  obtain ⟨hmh, hmr⟩ := mkDataFrame_ok hmk
  constructor
  · rw [hhdr]
    exact List.mem_map.mpr ⟨"time", htime, by simp⟩
  · intro r hr
    have hlen0 : ∀ r0 ∈ df0.rows, r0.length = df0.header.length := by
      intro r0 h0
      rw [hmh, List.length_map]
      exact (hmr r0 h0).1
    have hsh := parseDateCol_shapes hpc hlen0
    rw [hhdr, List.length_map]
    exact hsh r hr

theorem daily_json_to_df_date_cells {payload : List (String × Json)} {df : DF}
    (h : daily_json_to_df payload = .ok df) (hne : df.header ≠ []) :
    ∀ r ∈ df.rows, ∃ d : Int, cellAtIdx (idxOf "date" df.header) r = Value.ts d 0 none := by
  obtain ⟨entries, df0, heq, hmk, htime, hhdr, hpc⟩ := daily_json_to_df_ok_nonempty h hne
  obtain ⟨hmh, hmr⟩ := mkDataFrame_ok hmk
  have hdate : "date" ∈ df0.header.map (fun h => if h = "time" then "date" else h) :=
    List.mem_map.mpr ⟨"time", htime, by simp⟩
  have hidx := idxOf_lt_length hdate
  have hlen0 : ∀ r0 ∈ df0.rows,
      idxOf "date" (df0.header.map (fun h => if h = "time" then "date" else h)) < r0.length := by
    intro r0 h0
    have hl : r0.length = df0.header.length := by
      rw [hmh, List.length_map]
      exact (hmr r0 h0).1
    rw [hl]
    simpa [List.length_map] using hidx
  have hsc : ∀ r0 ∈ df0.rows, ∀ c ∈ r0, ∃ s, c = Value.scalar s :=
    fun r0 h0 => (hmr r0 h0).2
  rw [hhdr]
  exact parseDateCol_ok_cells hpc hlen0 hsc

theorem processYear_some {env : FetchEnv} {yr : Int} {fr : DF}
    (h : processYear env yr = some fr) :
    ∃ p df, env.fetchResult yr = .ok p ∧ env.writeFails yr = false ∧
      daily_json_to_df p = .ok df ∧ df.isEmpty = false ∧
      fr = df.setConst "year" (Value.scalar (Scalar.num yr)) := by
  unfold processYear at h
  split at h
  · cases h
  · rename_i p hp
    split at h
    · cases h
    · rename_i hw
      split at h
      · cases h
      · rename_i df hdf
        split at h
        · cases h
        · rename_i hemp
          exact ⟨p, df, hp, by simpa using hw, hdf, by simpa using hemp,
            (Option.some.inj h).symm⟩

theorem frames_mem_spec {env : FetchEnv} {s e : Int} {fr : DF}
    (h : fr ∈ (yearList s e).filterMap (processYear env)) :
    "date" ∈ fr.header ∧ ∀ r ∈ fr.rows, r.length = fr.header.length := by
  obtain ⟨yr, -, hpy⟩ := List.mem_filterMap.mp h
  obtain ⟨p, df, -, -, hdf, hemp, rfl⟩ := processYear_some hpy
  obtain ⟨hdate, hshape⟩ := daily_json_to_df_date_mem hdf hemp
  constructor
  · exact mem_of_mem_ifAppend hdate
  · intro r hr
    obtain ⟨r0, hr0, rfl⟩ := List.mem_map.mp hr
    exact setConstRow_length (hshape r0 hr0)

theorem assembleFrames_spec (frames : List DF) (lat lon : Scalar) (tz : String)
    (hframes : ∀ fr ∈ frames, "date" ∈ fr.header ∧ ∀ r ∈ fr.rows, r.length = fr.header.length)
    (hne : frames ≠ []) :
    idxOf "date" (annotateLoc (concatIgnoreIndex frames) lat lon tz).header =
        idxOf "date" (concatHeader [] frames) ∧
    (assembleFrames frames lat lon tz).header =
        (annotateLoc (concatIgnoreIndex frames) lat lon tz).header ∧
    List.Pairwise (fun r1 r2 =>
        keyLE (rowKey (idxOf "date" (concatHeader [] frames)) r1)
          (rowKey (idxOf "date" (concatHeader [] frames)) r2))
      (assembleFrames frames lat lon tz).rows ∧
    ((assembleFrames frames lat lon tz).rows.map
        (cellAtIdx (idxOf "date" (concatHeader [] frames)))).Nodup ∧
    (∀ z ∈ (annotateLoc (concatIgnoreIndex frames) lat lon tz).rows,
      ∃ r ∈ (assembleFrames frames lat lon tz).rows,
        cellAtIdx (idxOf "date" (concatHeader [] frames)) r =
          cellAtIdx (idxOf "date" (concatHeader [] frames)) z) := by
  obtain ⟨fr0, hfr0⟩ : ∃ fr, fr ∈ frames := by
    cases frames with
    | nil => exact absurd rfl hne
    | cons a b => exact ⟨a, List.mem_cons_self _ _⟩
  have hd : "date" ∈ concatHeader [] frames := concatHeader_mem hfr0 (hframes fr0 hfr0).1 []
  have hshape : ∀ r ∈ (concatIgnoreIndex frames).rows,
      r.length = (concatHeader [] frames).length := fun r hr => concat_rows_shape hr
  have Hf : ∀ r ∈ (concatIgnoreIndex frames).rows,
      cellAtIdx (idxOf "date" (concatHeader [] frames))
          (annotRowF (concatHeader [] frames) lat lon tz r) =
        cellAtIdx (idxOf "date" (concatHeader [] frames)) r :=
    fun r hr => annotRowF_cell hd (hshape r hr)
  have hannot_header :
      (annotateLoc ((concatIgnoreIndex frames).sortValues "date") lat lon tz).header =
        annotHeaderF (concatHeader [] frames) :=
    annotateLoc_header ((concatIgnoreIndex frames).sortValues "date") lat lon tz
  have hbase_header :
      (annotateLoc (concatIgnoreIndex frames) lat lon tz).header =
        annotHeaderF (concatHeader [] frames) :=
    annotateLoc_header (concatIgnoreIndex frames) lat lon tz
  have hidxF : idxOf "date" (annotHeaderF (concatHeader [] frames)) =
      idxOf "date" (concatHeader [] frames) := idxOf_annotHeaderF hd
  have hannot_rows :
      (annotateLoc ((concatIgnoreIndex frames).sortValues "date") lat lon tz).rows =
        ((concatIgnoreIndex frames).rows.mergeSort
            (rowLE (idxOf "date" (concatHeader [] frames)))).map
          (annotRowF (concatHeader [] frames) lat lon tz) := by
    rw [annotateLoc_rows]
    rfl
  have hbase_rows :
      (annotateLoc (concatIgnoreIndex frames) lat lon tz).rows =
        (concatIgnoreIndex frames).rows.map
          (annotRowF (concatHeader [] frames) lat lon tz) :=
    annotateLoc_rows (concatIgnoreIndex frames) lat lon tz
  have hmain : ((assembleFrames frames lat lon tz).rows =
        dedupRows (idxOf "date" (concatHeader [] frames)) []
          (((concatIgnoreIndex frames).rows.mergeSort
              (rowLE (idxOf "date" (concatHeader [] frames)))).map
            (annotRowF (concatHeader [] frames) lat lon tz))) ∧
      (assembleFrames frames lat lon tz).header = annotHeaderF (concatHeader [] frames) := by
    by_cases hdup :
        (annotateLoc ((concatIgnoreIndex frames).sortValues "date") lat lon tz).hasDupCol
          "date" = true
    · have hr : assembleFrames frames lat lon tz =
          (annotateLoc ((concatIgnoreIndex frames).sortValues "date") lat lon
            tz).dropDuplicatesFirst "date" := by
        unfold assembleFrames
        rw [if_pos hdup]
      rw [hr]
      constructor
      · show dedupRows _ [] _ = _
        rw [hannot_header, hidxF, hannot_rows]
      · show (annotateLoc ((concatIgnoreIndex frames).sortValues "date") lat lon tz).header = _
        exact hannot_header
    · have hr : assembleFrames frames lat lon tz =
          annotateLoc ((concatIgnoreIndex frames).sortValues "date") lat lon tz := by
        unfold assembleFrames
        rw [if_neg hdup]
      have hnd : ((annotateLoc ((concatIgnoreIndex frames).sortValues "date") lat lon
          tz).rows.map (cellAtIdx (idxOf "date" (concatHeader [] frames)))).Nodup := by
        simp only [DF.hasDupCol, decide_eq_true_eq, not_not, decide_not] at hdup
        rw [hannot_header, hidxF] at hdup
        simpa using hdup
      rw [hr]
      refine ⟨?_, hannot_header⟩
      rw [hannot_rows] at hnd ⊢
      exact (dedupRows_eq_self _ [] _ hnd (by intro z hz; exact List.not_mem_nil _)).symm
  obtain ⟨hrows, hhdr2⟩ := hmain
  refine ⟨by rw [hbase_header, hidxF], by rw [hhdr2, hbase_header], ?_, ?_, ?_⟩
  · rw [hrows]
    exact (sort_map_pairwise _ _ _ Hf).sublist (dedupRows_sublist _ _ _)
  · rw [hrows]
    exact (dedupRows_nodup _ _ _).1
  · intro z hz
    rw [hbase_rows] at hz
    obtain ⟨r, hrm, hre⟩ := sort_keys_complete _ _ _ hz
    rw [hrows]
    exact ⟨r, hrm, hre⟩

theorem frame_date_in_base {frames : List DF} {fr : DF} {r : List Value} (hfr : fr ∈ frames)
    (hdatefr : "date" ∈ fr.header) (hr : r ∈ fr.rows) (lat lon : Scalar) (tz : String) :
    ∃ z ∈ (annotateLoc (concatIgnoreIndex frames) lat lon tz).rows,
      cellAtIdx (idxOf "date" (concatHeader [] frames)) z =
        cellAtIdx (idxOf "date" fr.header) r := by
  have hd : "date" ∈ concatHeader [] frames := concatHeader_mem hfr hdatefr []
  have hal : alignRow (concatHeader [] frames) fr.header r ∈ (concatIgnoreIndex frames).rows :=
    concat_row_mem hfr hr
  refine ⟨annotRowF (concatHeader [] frames) lat lon tz
      (alignRow (concatHeader [] frames) fr.header r), ?_, ?_⟩
  · rw [annotateLoc_rows]
    exact List.mem_map_of_mem _ hal
  · rw [annotRowF_cell hd (concat_rows_shape hal)]
    exact alignRow_cell hfr hdatefr

theorem daily_json_to_df_mut_eq (payload : List (String × Json)) :
    daily_json_to_df_mut payload = (daily_json_to_df payload, payload) := by
  unfold daily_json_to_df_mut daily_json_to_df
  rcases hm : (List.lookup "daily" payload).getD (Json.obj []) with v | xs | entries <;>
    simp only [hm]
  split
  · rfl
  · split
    · rfl
    · split
      · split <;> rfl
      · rfl

/-- C8: for every empty table, save_dataframe writes no files and returns an
empty artifact set without raising an error, whatever the filesystem
environment does. -/
theorem c8_save_empty_noop (df : DF) (base_filename processed_dir : String)
    (write_parquet : Bool) (env : SaveEnv) (h : df.isEmpty = true) :
    save_dataframe df base_filename processed_dir write_parquet env = .ok ([], []) := by
  unfold save_dataframe
  rw [if_pos h]

theorem c8_save_empty_noop_witness :
    DF.emptyDF.isEmpty = true ∧
      save_dataframe DF.emptyDF "sydney_daily" "data/processed" true
          ⟨false, false, false⟩ = .ok ([], []) :=
  ⟨rfl, c8_save_empty_noop DF.emptyDF "sydney_daily" "data/processed" true
    ⟨false, false, false⟩ rfl⟩

/-- C9: for every non-empty table saved with the parquet format requested,
if the parquet writer raises, save_dataframe still returns successfully,
the CSV artifact is present in the returned set, and the parquet kind is
absent (no parquet file is written). -/
theorem c9_parquet_degrade (df : DF) (base_filename processed_dir : String) (env : SaveEnv)
    (hne : df.isEmpty = false) (hmk : env.mkdirFails = false) (hcsv : env.csvFails = false)
    (hpq : env.parquetFails = true) :
    save_dataframe df base_filename processed_dir true env =
        .ok ([("csv", processed_dir ++ "/" ++ base_filename ++ ".csv")],
          [processed_dir ++ "/" ++ base_filename ++ ".csv"]) ∧
      List.lookup "csv" [("csv", processed_dir ++ "/" ++ base_filename ++ ".csv")] =
        some (processed_dir ++ "/" ++ base_filename ++ ".csv") ∧
      List.lookup "parquet" [("csv", processed_dir ++ "/" ++ base_filename ++ ".csv")] =
        none := by
  refine ⟨?_, by simp, by simp⟩
  unfold save_dataframe
  rw [if_neg (by simp [hne]), if_neg (by simp [hmk]), if_neg (by simp [hcsv]),
    if_pos rfl, if_pos (by simp [hpq])]

theorem c9_parquet_degrade_witness :
    (DF.mk ["a"] [[vnull]]).isEmpty = false ∧
      (save_dataframe (DF.mk ["a"] [[vnull]]) "sydney_daily" "data" true
            ⟨false, false, true⟩ =
          .ok ([("csv", "data" ++ "/" ++ "sydney_daily" ++ ".csv")],
            ["data" ++ "/" ++ "sydney_daily" ++ ".csv"]) ∧
        List.lookup "csv" [("csv", "data" ++ "/" ++ "sydney_daily" ++ ".csv")] =
          some ("data" ++ "/" ++ "sydney_daily" ++ ".csv") ∧
        List.lookup "parquet" [("csv", "data" ++ "/" ++ "sydney_daily" ++ ".csv")] = none) :=
  ⟨rfl, c9_parquet_degrade (DF.mk ["a"] [[vnull]]) "sydney_daily" "data"
    ⟨false, false, true⟩ rfl rfl rfl rfl⟩

/-- C10: daily_json_to_df leaves its input unchanged: in the state-passing
embedding the payload mapping returned by every branch is the one that
was passed in (no statement of the normalizer assigns into the payload),
and the returned frame agrees with the direct embedding. -/
theorem c10_normalizer_pure (payload : List (String × Json)) :
    (daily_json_to_df_mut payload).2 = payload ∧
      (daily_json_to_df_mut payload).1 = daily_json_to_df payload := by
  rw [daily_json_to_df_mut_eq]
  exact ⟨rfl, rfl⟩

/-- C5 counterexample: when the caller's variable list already contains
weathercode, the daily query parameter contains it twice, not once — the
code appends unconditionally and never de-duplicates. -/
theorem c5_weathercode_dedup_cex :
    (fetch_daily_year_params 2024 (Scalar.num 0) (Scalar.num 0) "UTC" ["weathercode"]
        none).daily = "weathercode,weathercode" ∧
      (dailyParamList ["weathercode"]).count "weathercode" = 2 := by
  constructor
  · rfl
  · decide

/-- C5 amended: the daily query parameter is the comma-join of the caller's
ordered variable list with the quality-control weathercode appended
unconditionally; it therefore appears exactly once precisely when the
caller's list does not already contain it. -/
theorem c5_weathercode_appended (year : Int) (lat lon : Scalar) (timezone : String)
    (daily_vars : List String) (end_date : Option DateD) :
    (fetch_daily_year_params year lat lon timezone daily_vars end_date).daily =
        String.intercalate "," (daily_vars ++ ["weathercode"]) ∧
      ((("weathercode" : String) ∉ daily_vars) →
        (dailyParamList daily_vars).count "weathercode" = 1) := by
  refine ⟨rfl, ?_⟩
  intro h
  unfold dailyParamList
  rw [List.count_append, List.count_eq_zero.mpr h]
  rfl

theorem c5_weathercode_appended_witness :
    (("weathercode" : String) ∉ ["temperature_2m_max"]) ∧
      (dailyParamList ["temperature_2m_max"]).count "weathercode" = 1 :=
  ⟨by decide, (c5_weathercode_appended 2024 (Scalar.num 0) (Scalar.num 0) "UTC"
    ["temperature_2m_max"] none).2 (by decide)⟩

/-- C7 counterexample: when raw_dir.mkdir raises (it runs before the
try/finally), the function raises without ever executing the politeness
delay, so the delay does not run exactly once on every call. -/
theorem c7_delay_cex :
    (fetch_and_process_ytd ⟨true, Except.ok [], false⟩ 2000 (Scalar.num 0) (Scalar.num 0)
        "UTC").2 = 0 := rfl

/-- C7 amended: on every call where the raw-directory creation succeeds,
the politeness delay in the finally block executes exactly once — on the
success path, the empty-data path and the caught-failure path alike; if
directory creation itself fails the function raises before the delay. -/
theorem c7_delay_once (env : PartialEnv) (year : Int) (lat lon : Scalar) (timezone : String)
    (h : env.mkdirFails = false) :
    (fetch_and_process_ytd env year lat lon timezone).2 = 1 := by
  unfold fetch_and_process_ytd
  rw [if_neg (by simp [h])]
  split <;> rfl

theorem c7_delay_once_witness :
    (⟨false, Except.error Err.httpError, false⟩ : PartialEnv).mkdirFails = false ∧
      (fetch_and_process_ytd ⟨false, Except.error Err.httpError, false⟩ 2024 (Scalar.num 0)
          (Scalar.num 0) "UTC").2 = 1 :=
  ⟨rfl, c7_delay_once ⟨false, Except.error Err.httpError, false⟩ 2024 (Scalar.num 0)
    (Scalar.num 0) "UTC" rfl⟩

/-- C2 counterexample: a raw directory that cannot be created makes
fetch_and_process_partial_year raise to the caller — raw_dir.mkdir runs
before the try block, so nothing catches its exception. -/
theorem c2_mkdir_raises_cex :
    (fetch_and_process_ytd ⟨true, Except.error Err.httpError, true⟩ 2024 (Scalar.num 1)
        (Scalar.num 2) "Australia/Sydney").1 = Except.error Err.ioError := rfl

/-- C2 amended: provided the raw-directory creation succeeds, the
partial-year orchestrator never raises: the GET failing, the raw write
failing, or normalization failing are all caught and yield an empty
table; only a failure of raw_dir.mkdir itself (which runs before the try
block) propagates to the caller. -/
theorem c2_swallow (env : PartialEnv) (year : Int) (lat lon : Scalar) (timezone : String)
    (h : env.mkdirFails = false) :
    (∃ df, (fetch_and_process_ytd env year lat lon timezone).1 = .ok df) ∧
      (∀ e, env.fetchResult = .error e →
        (fetch_and_process_ytd env year lat lon timezone).1 = .ok DF.emptyDF) ∧
      (env.writeFails = true →
        (fetch_and_process_ytd env year lat lon timezone).1 = .ok DF.emptyDF) ∧
      (∀ p e, env.fetchResult = .ok p → daily_json_to_df p = .error e →
        (fetch_and_process_ytd env year lat lon timezone).1 = .ok DF.emptyDF) := by
  have hfe : ∀ {e : Err}, ytdBody env year lat lon timezone = .error e →
      (fetch_and_process_ytd env year lat lon timezone).1 = .ok DF.emptyDF := by
    intro e he
    unfold fetch_and_process_ytd
    rw [if_neg (by simp [h])]
    simp [he]
  have hfo : ∀ {df : DF}, ytdBody env year lat lon timezone = .ok df →
      (fetch_and_process_ytd env year lat lon timezone).1 = .ok df := by
    intro df hd
    unfold fetch_and_process_ytd
    rw [if_neg (by simp [h])]
    simp [hd]
  refine ⟨?_, ?_, ?_, ?_⟩
  · rcases hb : ytdBody env year lat lon timezone with e | df
    · exact ⟨DF.emptyDF, hfe hb⟩
    · exact ⟨df, hfo hb⟩
  · intro e he
    exact @hfe e (by simp [ytdBody, he])
  · intro hw
    rcases hfr : env.fetchResult with e | p
    · exact @hfe e (by simp [ytdBody, hfr])
    · exact @hfe Err.ioError (by simp [ytdBody, hfr, hw])
  · intro p e hp hdf
    cases hwf : env.writeFails
    · exact @hfe e (by simp [ytdBody, hp, hwf, hdf])
    · exact @hfe Err.ioError (by simp [ytdBody, hp, hwf])

theorem c2_swallow_witness :
    (⟨false, Except.error Err.httpError, false⟩ : PartialEnv).mkdirFails = false ∧
      ((∃ df, (fetch_and_process_ytd ⟨false, Except.error Err.httpError, false⟩ 2025
          (Scalar.num 0) (Scalar.num 0) "UTC").1 = .ok df) ∧
        (∀ e, (⟨false, Except.error Err.httpError, false⟩ : PartialEnv).fetchResult =
            .error e →
          (fetch_and_process_ytd ⟨false, Except.error Err.httpError, false⟩ 2025
            (Scalar.num 0) (Scalar.num 0) "UTC").1 = .ok DF.emptyDF) ∧
        ((⟨false, Except.error Err.httpError, false⟩ : PartialEnv).writeFails = true →
          (fetch_and_process_ytd ⟨false, Except.error Err.httpError, false⟩ 2025
            (Scalar.num 0) (Scalar.num 0) "UTC").1 = .ok DF.emptyDF) ∧
        (∀ p e, (⟨false, Except.error Err.httpError, false⟩ : PartialEnv).fetchResult =
            .ok p → daily_json_to_df p = .error e →
          (fetch_and_process_ytd ⟨false, Except.error Err.httpError, false⟩ 2025
            (Scalar.num 0) (Scalar.num 0) "UTC").1 = .ok DF.emptyDF)) :=
  ⟨rfl, c2_swallow ⟨false, Except.error Err.httpError, false⟩ 2025 (Scalar.num 0)
    (Scalar.num 0) "UTC" rfl⟩

/-- C6 counterexample: a payload whose daily block exists, is a non-empty
mapping, and lacks the time column, but holds only scalar values, makes
daily_json_to_df raise (pd.DataFrame of all-scalar values raises
ValueError before the time-column check) — so not every time-less daily
block yields an empty table without an exception. -/
theorem c6_scalar_daily_raises_cex :
    daily_json_to_df [("daily", Json.obj [("a", Json.scalar (Scalar.num 5))])] =
      .error Err.valueError := rfl

/-- C6 amended: daily_json_to_df returns an empty table and raises no
exception when the payload has no daily key, when the daily value is not
a mapping (scalar or array), when it is an empty mapping, and when it is
a non-empty mapping of equal-length array columns that lacks the time
column; a non-empty daily mapping that is not convertible to a table
(for instance all-scalar values) instead raises in the frame
constructor. -/
theorem c6_structural_empty (payload : List (String × Json)) :
    (List.lookup "daily" payload = none → daily_json_to_df payload = .ok DF.emptyDF) ∧
      (∀ s, List.lookup "daily" payload = some (Json.scalar s) →
        daily_json_to_df payload = .ok DF.emptyDF) ∧
      (∀ xs, List.lookup "daily" payload = some (Json.arr xs) →
        daily_json_to_df payload = .ok DF.emptyDF) ∧
      (List.lookup "daily" payload = some (Json.obj []) →
        daily_json_to_df payload = .ok DF.emptyDF) ∧
      (∀ entries (n : Nat), List.lookup "daily" payload = some (Json.obj entries) →
        entries ≠ [] →
        (∀ e ∈ entries, ∃ xs : List Scalar, e.2 = Json.arr xs ∧ xs.length = n) →
        "time" ∉ entries.map Prod.fst →
        daily_json_to_df payload = .ok DF.emptyDF) := by
  refine ⟨?_, ?_, ?_, ?_, ?_⟩
  · intro h
    simp [daily_json_to_df, h]
  · intro s h
    simp [daily_json_to_df, h]
  · intro xs h
    simp [daily_json_to_df, h]
  · intro h
    simp [daily_json_to_df, h]
  · intro entries n h hne harr htime
    obtain ⟨df0, hmk, hhdr⟩ := mkDataFrame_ok_of_arrays hne harr
    have hemp : entries.isEmpty = false := by
      cases entries with
      | nil => exact absurd rfl hne
      | cons a b => rfl
    have htime0 : ("time" ∈ df0.header) = False := by
      simp only [eq_iff_iff, iff_false]
      rw [hhdr]
      exact htime
    simp [daily_json_to_df, h, hemp, hmk, htime0]

theorem c6_structural_empty_witness :
    (List.lookup "daily"
        [("daily", Json.obj [("temperature_2m_max", Json.arr [Scalar.num 1])])] =
      some (Json.obj [("temperature_2m_max", Json.arr [Scalar.num 1])])) ∧
      (("temperature_2m_max", Json.arr [Scalar.num 1]) ::
          ([] : List (String × Json)) ≠ []) ∧
      ("time" ∉ ["temperature_2m_max"]) ∧
      daily_json_to_df
          [("daily", Json.obj [("temperature_2m_max", Json.arr [Scalar.num 1])])] =
        .ok DF.emptyDF :=
  ⟨rfl, List.cons_ne_nil _ _, by decide,
    (c6_structural_empty
        [("daily", Json.obj [("temperature_2m_max", Json.arr [Scalar.num 1])])]).2.2.2.2
      [("temperature_2m_max", Json.arr [Scalar.num 1])] 1 rfl (List.cons_ne_nil _ _)
      (fun e he => by
        simp only [List.mem_singleton] at he
        exact ⟨[Scalar.num 1], by rw [he], rfl⟩)
      (by decide)⟩

/-- C4 counterexample: a well-formed payload that declares the time column
after another variable yields a table whose date column is not first —
the code renames time to date in place and never reorders columns. -/
theorem c4_column_order_cex :
    daily_json_to_df
        [("daily", Json.obj [("temperature_2m_max", Json.arr [Scalar.num 30]),
            ("time", Json.arr [Scalar.str "2024-01-01"])])] =
      .ok { header := ["temperature_2m_max", "date"],
            rows := [[Value.scalar (Scalar.num 30), Value.ts 752928 0 none]] } ∧
      (["temperature_2m_max", "date"] : List String)[0]? ≠ some "date" := by
  constructor
  · rfl
  · decide

/-- C4 amended: whenever daily_json_to_df succeeds with a table that has
columns, the payload's daily block declared a time column, the result's
column order is exactly the payload's declared variable order with time
renamed to date in place (so date is first only when time was declared
first), and every cell of the date column is a day-precision timestamp
(zero time of day) with no timezone offset. -/
theorem c4_normalized_shape (payload : List (String × Json)) (df : DF)
    (h : daily_json_to_df payload = .ok df) (hne : df.header ≠ []) :
    ∃ entries, (List.lookup "daily" payload).getD (Json.obj []) = Json.obj entries ∧
      "time" ∈ entries.map Prod.fst ∧
      df.header = (entries.map Prod.fst).map (fun c => if c = "time" then "date" else c) ∧
      ∀ r ∈ df.rows, ∃ d : Int, cellAtIdx (idxOf "date" df.header) r = Value.ts d 0 none := by
  obtain ⟨entries, df0, heq, hmk, htime, hhdr, -⟩ := daily_json_to_df_ok_nonempty h hne
  obtain ⟨hmh, -⟩ := mkDataFrame_ok hmk
  refine ⟨entries, heq, by rw [← hmh]; exact htime, by rw [hhdr, hmh], ?_⟩
  exact daily_json_to_df_date_cells h hne

theorem c4_normalized_shape_witness :
    (daily_json_to_df
        [("daily", Json.obj [("time", Json.arr [Scalar.str "2024-01-01"]),
            ("temperature_2m_max", Json.arr [Scalar.num 30])])] =
      .ok { header := ["date", "temperature_2m_max"],
            rows := [[Value.ts 752928 0 none, Value.scalar (Scalar.num 30)]] }) ∧
      ((["date", "temperature_2m_max"] : List String) ≠ []) ∧
      (∃ entries,
        (List.lookup "daily"
            [("daily", Json.obj [("time", Json.arr [Scalar.str "2024-01-01"]),
                ("temperature_2m_max", Json.arr [Scalar.num 30])])]).getD (Json.obj []) =
          Json.obj entries ∧
        "time" ∈ entries.map Prod.fst ∧
        (DF.mk ["date", "temperature_2m_max"]
            [[Value.ts 752928 0 none, Value.scalar (Scalar.num 30)]]).header =
          (entries.map Prod.fst).map (fun c => if c = "time" then "date" else c) ∧
        ∀ r ∈ (DF.mk ["date", "temperature_2m_max"]
            [[Value.ts 752928 0 none, Value.scalar (Scalar.num 30)]]).rows,
          ∃ d : Int,
            cellAtIdx (idxOf "date" (DF.mk ["date", "temperature_2m_max"]
                [[Value.ts 752928 0 none, Value.scalar (Scalar.num 30)]]).header) r =
              Value.ts d 0 none) :=
  ⟨rfl, by decide,
    c4_normalized_shape
      [("daily", Json.obj [("time", Json.arr [Scalar.str "2024-01-01"]),
          ("temperature_2m_max", Json.arr [Scalar.num 30])])]
      (DF.mk ["date", "temperature_2m_max"]
        [[Value.ts 752928 0 none, Value.scalar (Scalar.num 30)]])
      rfl (by decide)⟩

/-- C3: when the raw directory can be created, fetch_and_process_years
never raises: every year's fetch-write-normalize failure is caught and
that year simply contributes nothing; the result is exactly the
assembly of the frames of the years that succeeded (so one year's
failure never aborts the batch), every date of every succeeded year's
frame is present in the returned table, and when no year produced data
the empty table is returned. -/
theorem c3_failure_isolation (env : FetchEnv) (start_year end_year : Int) (lat lon : Scalar)
    (timezone : String) (h : env.mkdirFails = false) :
    ∃ df, fetch_and_process_years env start_year end_year lat lon timezone = .ok df ∧
      (((yearList start_year end_year).filterMap (processYear env) = []) → df = DF.emptyDF) ∧
      (∀ frames, (yearList start_year end_year).filterMap (processYear env) = frames →
        frames ≠ [] → df = assembleFrames frames lat lon timezone) ∧
      (∀ yr ∈ yearList start_year end_year, ∀ fr, processYear env yr = some fr →
        ∀ r ∈ fr.rows, ∃ r2 ∈ df.rows,
          cellAtIdx (idxOf "date" df.header) r2 = cellAtIdx (idxOf "date" fr.header) r) := by
  unfold fetch_and_process_years
  rw [if_neg (by simp [h])]
  by_cases hfe : ((yearList start_year end_year).filterMap (processYear env)).isEmpty = true
  · rw [if_pos hfe]
    refine ⟨DF.emptyDF, rfl, fun _ => rfl, ?_, ?_⟩
    · intro frames hf hne
      rw [← hf] at hne
      exact absurd (List.isEmpty_iff.mp hfe) hne
    · intro yr hyr fr hfr r hr
      have hm : fr ∈ (yearList start_year end_year).filterMap (processYear env) :=
        List.mem_filterMap.mpr ⟨yr, hyr, hfr⟩
      rw [List.isEmpty_iff.mp hfe] at hm
      cases hm
  · rw [if_neg hfe]
    have hne : (yearList start_year end_year).filterMap (processYear env) ≠ [] := by
      simpa [List.isEmpty_iff] using hfe
    obtain ⟨hidxb, hhdr, -, -, hcmpl⟩ :=
      assembleFrames_spec ((yearList start_year end_year).filterMap (processYear env))
        lat lon timezone (fun fr hfr => frames_mem_spec hfr) hne
    refine ⟨_, rfl, ?_, ?_, ?_⟩
    · intro hc
      exact absurd hc hne
    · intro frames hf hne2
      rw [← hf]
    · intro yr hyr fr hfr r hr
      have hfrm : fr ∈ (yearList start_year end_year).filterMap (processYear env) :=
        List.mem_filterMap.mpr ⟨yr, hyr, hfr⟩
      have hdfr : "date" ∈ fr.header := (frames_mem_spec hfrm).1
      obtain ⟨z, hz, hze⟩ := frame_date_in_base hfrm hdfr hr lat lon timezone
      obtain ⟨r2, hr2, hr2e⟩ := hcmpl z hz
      refine ⟨r2, hr2, ?_⟩
      rw [hhdr, hidxb, hr2e, hze]

theorem c3_failure_isolation_witness :
    ((⟨fun yr =>
      if yr = 2023 then
        Except.ok [("daily", Json.obj [("time", Json.arr [Scalar.str "2023-12-31",
          Scalar.str "2024-01-01"]), ("t", Json.arr [Scalar.num 1, Scalar.num 2])])]
      else if yr = 2024 then
        Except.ok [("daily", Json.obj [("time", Json.arr [Scalar.str "2024-01-01",
          Scalar.str "2024-01-02"]), ("t", Json.arr [Scalar.num 3, Scalar.num 4])])]
      else Except.error Err.httpError,
      fun _ => false, false⟩ : FetchEnv).mkdirFails = false) ∧
      (∃ df, fetch_and_process_years (⟨fun yr =>
      if yr = 2023 then
        Except.ok [("daily", Json.obj [("time", Json.arr [Scalar.str "2023-12-31",
          Scalar.str "2024-01-01"]), ("t", Json.arr [Scalar.num 1, Scalar.num 2])])]
      else if yr = 2024 then
        Except.ok [("daily", Json.obj [("time", Json.arr [Scalar.str "2024-01-01",
          Scalar.str "2024-01-02"]), ("t", Json.arr [Scalar.num 3, Scalar.num 4])])]
      else Except.error Err.httpError,
      fun _ => false, false⟩ : FetchEnv) 2023 2026 (Scalar.num 0)
          (Scalar.num 0) "UTC" = .ok df ∧
        (((yearList 2023 2026).filterMap (processYear (⟨fun yr =>
      if yr = 2023 then
        Except.ok [("daily", Json.obj [("time", Json.arr [Scalar.str "2023-12-31",
          Scalar.str "2024-01-01"]), ("t", Json.arr [Scalar.num 1, Scalar.num 2])])]
      else if yr = 2024 then
        Except.ok [("daily", Json.obj [("time", Json.arr [Scalar.str "2024-01-01",
          Scalar.str "2024-01-02"]), ("t", Json.arr [Scalar.num 3, Scalar.num 4])])]
      else Except.error Err.httpError,
      fun _ => false, false⟩ : FetchEnv)) = []) →
          df = DF.emptyDF) ∧
        (∀ frames, (yearList 2023 2026).filterMap (processYear (⟨fun yr =>
      if yr = 2023 then
        Except.ok [("daily", Json.obj [("time", Json.arr [Scalar.str "2023-12-31",
          Scalar.str "2024-01-01"]), ("t", Json.arr [Scalar.num 1, Scalar.num 2])])]
      else if yr = 2024 then
        Except.ok [("daily", Json.obj [("time", Json.arr [Scalar.str "2024-01-01",
          Scalar.str "2024-01-02"]), ("t", Json.arr [Scalar.num 3, Scalar.num 4])])]
      else Except.error Err.httpError,
      fun _ => false, false⟩ : FetchEnv)) = frames →
          frames ≠ [] → df = assembleFrames frames (Scalar.num 0) (Scalar.num 0) "UTC") ∧
        (∀ yr ∈ yearList 2023 2026, ∀ fr, processYear (⟨fun yr =>
      if yr = 2023 then
        Except.ok [("daily", Json.obj [("time", Json.arr [Scalar.str "2023-12-31",
          Scalar.str "2024-01-01"]), ("t", Json.arr [Scalar.num 1, Scalar.num 2])])]
      else if yr = 2024 then
        Except.ok [("daily", Json.obj [("time", Json.arr [Scalar.str "2024-01-01",
          Scalar.str "2024-01-02"]), ("t", Json.arr [Scalar.num 3, Scalar.num 4])])]
      else Except.error Err.httpError,
      fun _ => false, false⟩ : FetchEnv) yr = some fr →
          ∀ r ∈ fr.rows, ∃ r2 ∈ df.rows,
            cellAtIdx (idxOf "date" df.header) r2 = cellAtIdx (idxOf "date" fr.header) r)) :=
  ⟨rfl, c3_failure_isolation (⟨fun yr =>
      if yr = 2023 then
        Except.ok [("daily", Json.obj [("time", Json.arr [Scalar.str "2023-12-31",
          Scalar.str "2024-01-01"]), ("t", Json.arr [Scalar.num 1, Scalar.num 2])])]
      else if yr = 2024 then
        Except.ok [("daily", Json.obj [("time", Json.arr [Scalar.str "2024-01-01",
          Scalar.str "2024-01-02"]), ("t", Json.arr [Scalar.num 3, Scalar.num 4])])]
      else Except.error Err.httpError,
      fun _ => false, false⟩ : FetchEnv) 2023 2026 (Scalar.num 0) (Scalar.num 0)
    "UTC" rfl⟩

/-- C1 (code-bug evidence at the failing input): with two fetched years
whose payloads report the same ten dates, the orchestrator reaches the
duplicate-dropping branch on a twenty-row frame: both years' frames have
ten rows, their concatenation has twenty rows, and its date column has
duplicate dates (sorting permutes the rows, so the sorted frame has the
same duplicated dates), so drop_duplicates(keep="first") chooses each
date's survivor by the order sort_values produced.  The source sorts
with pandas' default kind='quicksort', documented as not stable (and on
twenty elements numpy is past its stable insertion-sort regime), so
which equal-date row comes first after the sort — and hence the claim's
first-occurrence-in-fetch-order tie-break — is not guaranteed by the
program. -/
theorem c1_unstable_sort_failing_input :
    ((yearList 2023 2024).filterMap (processYear
        ⟨fun yr =>
          if yr = 2023 then
            Except.ok [("daily", Json.obj [("time", Json.arr [Scalar.str "2024-01-01",
              Scalar.str "2024-01-02", Scalar.str "2024-01-03", Scalar.str "2024-01-04",
              Scalar.str "2024-01-05", Scalar.str "2024-01-06", Scalar.str "2024-01-07",
              Scalar.str "2024-01-08", Scalar.str "2024-01-09", Scalar.str "2024-01-10"]),
              ("t", Json.arr [Scalar.num 1, Scalar.num 2, Scalar.num 3, Scalar.num 4,
                Scalar.num 5, Scalar.num 6, Scalar.num 7, Scalar.num 8, Scalar.num 9,
                Scalar.num 10])])]
          else
            Except.ok [("daily", Json.obj [("time", Json.arr [Scalar.str "2024-01-01",
              Scalar.str "2024-01-02", Scalar.str "2024-01-03", Scalar.str "2024-01-04",
              Scalar.str "2024-01-05", Scalar.str "2024-01-06", Scalar.str "2024-01-07",
              Scalar.str "2024-01-08", Scalar.str "2024-01-09", Scalar.str "2024-01-10"]),
              ("t", Json.arr [Scalar.num 11, Scalar.num 12, Scalar.num 13, Scalar.num 14,
                Scalar.num 15, Scalar.num 16, Scalar.num 17, Scalar.num 18, Scalar.num 19,
                Scalar.num 20])])],
          fun _ => false, false⟩)).length = 2 ∧
      (∀ fr ∈ (yearList 2023 2024).filterMap (processYear
        ⟨fun yr =>
          if yr = 2023 then
            Except.ok [("daily", Json.obj [("time", Json.arr [Scalar.str "2024-01-01",
              Scalar.str "2024-01-02", Scalar.str "2024-01-03", Scalar.str "2024-01-04",
              Scalar.str "2024-01-05", Scalar.str "2024-01-06", Scalar.str "2024-01-07",
              Scalar.str "2024-01-08", Scalar.str "2024-01-09", Scalar.str "2024-01-10"]),
              ("t", Json.arr [Scalar.num 1, Scalar.num 2, Scalar.num 3, Scalar.num 4,
                Scalar.num 5, Scalar.num 6, Scalar.num 7, Scalar.num 8, Scalar.num 9,
                Scalar.num 10])])]
          else
            Except.ok [("daily", Json.obj [("time", Json.arr [Scalar.str "2024-01-01",
              Scalar.str "2024-01-02", Scalar.str "2024-01-03", Scalar.str "2024-01-04",
              Scalar.str "2024-01-05", Scalar.str "2024-01-06", Scalar.str "2024-01-07",
              Scalar.str "2024-01-08", Scalar.str "2024-01-09", Scalar.str "2024-01-10"]),
              ("t", Json.arr [Scalar.num 11, Scalar.num 12, Scalar.num 13, Scalar.num 14,
                Scalar.num 15, Scalar.num 16, Scalar.num 17, Scalar.num 18, Scalar.num 19,
                Scalar.num 20])])],
          fun _ => false, false⟩), fr.rows.length = 10) ∧
      (concatIgnoreIndex ((yearList 2023 2024).filterMap (processYear
        ⟨fun yr =>
          if yr = 2023 then
            Except.ok [("daily", Json.obj [("time", Json.arr [Scalar.str "2024-01-01",
              Scalar.str "2024-01-02", Scalar.str "2024-01-03", Scalar.str "2024-01-04",
              Scalar.str "2024-01-05", Scalar.str "2024-01-06", Scalar.str "2024-01-07",
              Scalar.str "2024-01-08", Scalar.str "2024-01-09", Scalar.str "2024-01-10"]),
              ("t", Json.arr [Scalar.num 1, Scalar.num 2, Scalar.num 3, Scalar.num 4,
                Scalar.num 5, Scalar.num 6, Scalar.num 7, Scalar.num 8, Scalar.num 9,
                Scalar.num 10])])]
          else
            Except.ok [("daily", Json.obj [("time", Json.arr [Scalar.str "2024-01-01",
              Scalar.str "2024-01-02", Scalar.str "2024-01-03", Scalar.str "2024-01-04",
              Scalar.str "2024-01-05", Scalar.str "2024-01-06", Scalar.str "2024-01-07",
              Scalar.str "2024-01-08", Scalar.str "2024-01-09", Scalar.str "2024-01-10"]),
              ("t", Json.arr [Scalar.num 11, Scalar.num 12, Scalar.num 13, Scalar.num 14,
                Scalar.num 15, Scalar.num 16, Scalar.num 17, Scalar.num 18, Scalar.num 19,
                Scalar.num 20])])],
          fun _ => false, false⟩))).rows.length = 20 ∧
      (concatIgnoreIndex ((yearList 2023 2024).filterMap (processYear
        ⟨fun yr =>
          if yr = 2023 then
            Except.ok [("daily", Json.obj [("time", Json.arr [Scalar.str "2024-01-01",
              Scalar.str "2024-01-02", Scalar.str "2024-01-03", Scalar.str "2024-01-04",
              Scalar.str "2024-01-05", Scalar.str "2024-01-06", Scalar.str "2024-01-07",
              Scalar.str "2024-01-08", Scalar.str "2024-01-09", Scalar.str "2024-01-10"]),
              ("t", Json.arr [Scalar.num 1, Scalar.num 2, Scalar.num 3, Scalar.num 4,
                Scalar.num 5, Scalar.num 6, Scalar.num 7, Scalar.num 8, Scalar.num 9,
                Scalar.num 10])])]
          else
            Except.ok [("daily", Json.obj [("time", Json.arr [Scalar.str "2024-01-01",
              Scalar.str "2024-01-02", Scalar.str "2024-01-03", Scalar.str "2024-01-04",
              Scalar.str "2024-01-05", Scalar.str "2024-01-06", Scalar.str "2024-01-07",
              Scalar.str "2024-01-08", Scalar.str "2024-01-09", Scalar.str "2024-01-10"]),
              ("t", Json.arr [Scalar.num 11, Scalar.num 12, Scalar.num 13, Scalar.num 14,
                Scalar.num 15, Scalar.num 16, Scalar.num 17, Scalar.num 18, Scalar.num 19,
                Scalar.num 20])])],
          fun _ => false, false⟩))).hasDupCol "date" = true := by
  refine ⟨by decide, by decide, by decide, by decide⟩
